import Mathlib

set_option maxHeartbeats 1000000

/-- Python-style runtime errors that the sensor value code can raise. -/
inductive PyErr where
  | valueError
  | typeError
  | zeroDivisionError
deriving DecidableEq, Repr

/-- Python datetime as used by the `datetime.now()` arithmetic in the sensor:
whole minutes since an epoch plus the seconds-and-microseconds remainder
(an exact rational in `[0, 60)`) within that minute. -/
structure PyDateTime where
  minutes : Int
  sub : ℚ
deriving DecidableEq, Repr

/-- Calendar-field view of the token-expiry datetime; only its
`strftime("%Y-%m-%d %H:%M:%S")` rendering is consumed by the sensor. -/
structure TokenTime where
  year : Nat
  month : Nat
  day : Nat
  hour : Nat
  minute : Nat
  second : Nat
deriving DecidableEq, Repr

/-- Python scalar values flowing through the sensor code: None, bool, int,
float (idealised as an exact rational), str, and datetime results. -/
inductive Val where
  | none
  | bool (b : Bool)
  | int (n : Int)
  | float (q : ℚ)
  | str (s : String)
  | dt (t : PyDateTime)
deriving DecidableEq, Repr

/-- Python `==` on the embedded values: numeric cross-type equality
(`0 == False`, `1 == True`, int/float comparisons); `None` equal only to
itself; strings and datetimes compared structurally. -/
def pyEq : Val → Val → Bool
  | Val.none, Val.none => true
  | Val.bool a, Val.bool b => decide (a = b)
  | Val.bool a, Val.int n => decide ((if a then 1 else 0 : Int) = n)
  | Val.bool a, Val.float q => decide (((if a then 1 else 0 : Int) : ℚ) = q)
  | Val.int n, Val.bool b => decide (n = (if b then 1 else 0 : Int))
  | Val.int n, Val.int m => decide (n = m)
  | Val.int n, Val.float q => decide ((n : ℚ) = q)
  | Val.float q, Val.bool b => decide (q = (((if b then 1 else 0 : Int) : ℚ)))
  | Val.float q, Val.int n => decide (q = (n : ℚ))
  | Val.float p, Val.float q => decide (p = q)
  | Val.str s, Val.str t => decide (s = t)
  | Val.dt a, Val.dt b => decide (a = b)
  | _, _ => false

/-- Truncation toward zero, i.e. Python `int(...)` applied to a float. -/
def qTrunc (q : ℚ) : Int := if 0 ≤ q then ⌊q⌋ else ⌈q⌉

/-- Whitespace characters stripped by Python numeric conversions. -/
def chIsSpace (c : Char) : Bool :=
  c = ' ' || c = '\t' || c = '\n' || c = '\r'

/-- Strip leading and trailing whitespace from a character list. -/
def chTrim (l : List Char) : List Char :=
  ((l.dropWhile chIsSpace).reverse.dropWhile chIsSpace).reverse

/-- Decimal digit test. -/
def chIsDigit (c : Char) : Bool := 48 ≤ c.toNat && c.toNat ≤ 57

/-- Numeric value of a digit list (most significant digit first). -/
def chDigitsVal (l : List Char) : Nat :=
  l.foldl (fun a c => a * 10 + (c.toNat - 48)) 0

/-- Whether `needle` is a prefix of `hay`. -/
def chStartsWith : List Char → List Char → Bool
  | [], _ => true
  | _ :: _, [] => false
  | a :: as, b :: bs => a = b && chStartsWith as bs

/-- Whether `needle` occurs as a contiguous sublist of `hay`. -/
def chContains : List Char → List Char → Bool
  | [], needle => needle.isEmpty
  | h :: t, needle => chStartsWith needle (h :: t) || chContains t needle

/-- Left-to-right non-overlapping replacement of `pat` by `rep`, with fuel
(called with the length of the scanned list; `pat` is never empty here). -/
def chReplace : Nat → List Char → List Char → List Char → List Char
  | 0, hay, _, _ => hay
  | _ + 1, [], _, _ => []
  | fuel + 1, h :: t, pat, rep =>
    if chStartsWith pat (h :: t) && !pat.isEmpty then
      rep ++ chReplace fuel (List.drop (pat.length - 1) t) pat rep
    else h :: chReplace fuel t pat rep

/-- Python `str.replace(pat, rep)`: every occurrence replaced, scanning left
to right (only ever called with the nonempty pattern `".0"` here). -/
def pyReplace (s pat rep : String) : String :=
  String.mk (chReplace s.data.length s.data pat.data rep.data)

/-- Python `int(...)` on a character list: optional surrounding whitespace,
optional sign, then decimal digits (underscored literals are not
modelled; all values in this development are canonical digit strings). -/
def chParseInt (l0 : List Char) : Except PyErr Int :=
  match chTrim l0 with
  | '-' :: rest =>
      if !rest.isEmpty && rest.all chIsDigit then Except.ok (-(chDigitsVal rest : Int))
      else Except.error PyErr.valueError
  | '+' :: rest =>
      if !rest.isEmpty && rest.all chIsDigit then Except.ok ((chDigitsVal rest : Int))
      else Except.error PyErr.valueError
  | l =>
      if !l.isEmpty && l.all chIsDigit then Except.ok ((chDigitsVal l : Int))
      else Except.error PyErr.valueError

/-- Python `int(...)` on a string. -/
def parseIntStr (s : String) : Except PyErr Int := chParseInt s.data

/-- Split a character list on the dot character. -/
def chSplitDot (l : List Char) : List (List Char) :=
  l.foldr
    (fun c acc =>
      if c = '.' then [] :: acc
      else
        match acc with
        | [] => [[c]]
        | h :: t => (c :: h) :: t)
    [[]]

/-- Unsigned decimal literal `digits[.digits]` as an exact rational. -/
def chParseUnsignedDec (l : List Char) : Option ℚ :=
  match chSplitDot l with
  | [a] =>
      if !a.isEmpty && a.all chIsDigit then Option.some ((chDigitsVal a : ℚ))
      else Option.none
  | [a, b] =>
      if !(a.isEmpty && b.isEmpty) && a.all chIsDigit && b.all chIsDigit then
        Option.some ((chDigitsVal a : ℚ) + (chDigitsVal b : ℚ) / ((10 : ℚ)) ^ b.length)
      else Option.none
  | _ => Option.none

/-- Python `float(...)` on a string: optional sign and a decimal literal. -/
def parseFloatStr (s : String) : Except PyErr ℚ :=
  match chTrim s.data with
  | '-' :: rest =>
      match chParseUnsignedDec rest with
      | Option.some q => Except.ok (-q)
      | Option.none => Except.error PyErr.valueError
  | '+' :: rest =>
      match chParseUnsignedDec rest with
      | Option.some q => Except.ok q
      | Option.none => Except.error PyErr.valueError
  | l =>
      match chParseUnsignedDec l with
      | Option.some q => Except.ok q
      | Option.none => Except.error PyErr.valueError

/-- Python `int(x)`: identity on ints, bools to 0/1, floats truncated toward
zero, strings parsed, everything else a TypeError. -/
def pyToInt : Val → Except PyErr Int
  | Val.bool b => Except.ok (if b then 1 else 0)
  | Val.int n => Except.ok n
  | Val.float q => Except.ok (qTrunc q)
  | Val.str s => parseIntStr s
  | _ => Except.error PyErr.typeError

/-- Python `float(x)`. -/
def pyFloat : Val → Except PyErr ℚ
  | Val.bool b => Except.ok (if b then 1 else 0)
  | Val.int n => Except.ok ((n : ℚ))
  | Val.float q => Except.ok q
  | Val.str s => parseFloatStr s
  | _ => Except.error PyErr.typeError

/-- Python `x > m` against an int bound: defined for numeric `x`,
TypeError otherwise. -/
def pyGtInt : Val → Int → Except PyErr Bool
  | Val.bool b, m => Except.ok (decide (m < (if b then 1 else 0 : Int)))
  | Val.int n, m => Except.ok (decide (m < n))
  | Val.float q, m => Except.ok (decide ((m : ℚ) < q))
  | _, _ => Except.error PyErr.typeError

/-- Python true division `x / m` by a nonzero int constant. -/
def pyDivInt : Val → Int → Except PyErr ℚ
  | Val.bool b, m => Except.ok ((((if b then 1 else 0 : Int) : ℚ)) / (m : ℚ))
  | Val.int n, m => Except.ok ((n : ℚ) / (m : ℚ))
  | Val.float q, m => Except.ok (q / (m : ℚ))
  | _, _ => Except.error PyErr.typeError

/-- Python `round(x)` (half to even) on an exact rational. -/
def pyRound (q : ℚ) : Int :=
  let f := ⌊q⌋
  let r := q - (f : ℚ)
  if r < 1/2 then f
  else if (1 : ℚ)/2 < r then f + 1
  else if f % 2 = 0 then f else f + 1

/-- Power of ten with an integer exponent, as a rational. -/
def qpow10 (d : Int) : ℚ :=
  if 0 ≤ d then ((10 : ℚ)) ^ d.toNat else 1 / ((10 : ℚ)) ^ (-d).toNat

/-- Python `round(x, d)` (result is a float). -/
def pyRoundDigits (q : ℚ) (d : Int) : ℚ :=
  (((pyRound (q * qpow10 d)) : ℚ)) / qpow10 d

/-- Python substring containment `needle in hay`. -/
def strIn (needle hay : String) : Bool :=
  chContains hay.data needle.data

/-- Python `dict.get(k, dflt)` on an association list keyed by `==`. -/
def dictGet (l : List (Val × Val)) (k dflt : Val) : Val :=
  match l.find? (fun p => pyEq p.1 k) with
  | Option.some p => p.2
  | Option.none => dflt

/-- Two-digit zero padding. -/
def pad2 (n : Nat) : String := if n < 10 then "0" ++ toString n else toString n

/-- Four-digit zero padding. -/
def pad4 (n : Nat) : String :=
  if n < 10 then "000" ++ toString n
  else if n < 100 then "00" ++ toString n
  else if n < 1000 then "0" ++ toString n
  else toString n

/-- `strftime("%Y-%m-%d %H:%M:%S")` on the calendar fields. -/
def strftimeYmdHms (t : TokenTime) : String :=
  pad4 t.year ++ "-" ++ pad2 t.month ++ "-" ++ pad2 t.day ++ " " ++
    pad2 t.hour ++ ":" ++ pad2 t.minute ++ ":" ++ pad2 t.second

/-- Python `isinstance(x, int)` (true for bools as well, a subclass of int). -/
def isinstanceInt : Val → Bool
  | Val.int _ => true
  | Val.bool _ => true
  | _ => false

/-- Python `int(x)` restricted to values satisfying `isinstanceInt`. -/
def intValOf : Val → Int
  | Val.int n => n
  | Val.bool b => if b then 1 else 0
  | _ => 0

/-- Static sensor descriptor: the `PolestarSensorDescription` fields used by
the sensor logic (key, name, icon from the entity description; query,
field_name, unit, round_digits, max_value, dict_data from the mixin). -/
structure Descriptor where
  key : String
  name : String
  icon : Option String
  query : Option String
  field_name : Option String
  unit : Option String
  round_digits : Option Int
  max_value : Option Int
  dict_data : Option (List (Val × Val))
deriving DecidableEq, Repr

/-- The external `Polestar` device object as seen from the sensor: the
attributes and read accessors the sensor code calls. -/
structure Device where
  vin : String
  id : String
  latest_call_code : Int
  token_expiry : Option TokenTime
  get_latest_data : Option String → Option String → Val

/-- `CHARGING_CONNECTION_STATUS_DICT` from the source. -/
def CHARGING_CONNECTION_STATUS_DICT : List (Val × Val) :=
  [(Val.str "CHARGER_CONNECTION_STATUS_CONNECTED", Val.str "Connected"),
   (Val.str "CHARGER_CONNECTION_STATUS_DISCONNECTED", Val.str "Disconnected"),
   (Val.str "CHARGER_CONNECTION_STATUS_FAULT", Val.str "Fault"),
   (Val.str "CHARGER_CONNECTION_STATUS_UNSPECIFIED", Val.str "Unspecified")]

/-- `CHARGING_STATUS_DICT` from the source. -/
def CHARGING_STATUS_DICT : List (Val × Val) :=
  [(Val.str "CHARGING_STATUS_DONE", Val.str "Done"),
   (Val.str "CHARGING_STATUS_IDLE", Val.str "Idle"),
   (Val.str "CHARGING_STATUS_CHARGING", Val.str "Charging"),
   (Val.str "CHARGING_STATUS_FAULT", Val.str "Fault"),
   (Val.str "CHARGING_STATUS_UNSPECIFIED", Val.str "Unspecified"),
   (Val.str "CHARGING_STATUS_SCHEDULED", Val.str "Scheduled"),
   (Val.str "CHARGING_STATUS_DISCHARGING", Val.str "Discharging"),
   (Val.str "CHARGING_STATUS_ERROR", Val.str "Error"),
   (Val.str "CHARGING_STATUS_SMART_CHARGING", Val.str "Smart Charging")]

/-- `API_STATUS_DICT` from the source. -/
def API_STATUS_DICT : List (Val × Val) :=
  [(Val.int 200, Val.str "OK"),
   (Val.int 303, Val.str "OK"),
   (Val.int 401, Val.str "Unauthorized"),
   (Val.int 404, Val.str "API Down"),
   (Val.int 500, Val.str "Internal Server Error")]

def dEstimateDistanceToEmptyMiles : Descriptor :=
  ⟨"estimate_distance_to_empty_miles", "Distance Miles Remaining",
   Option.some "mdi:map-marker-distance", Option.some "getBatteryData",
   Option.some "estimatedDistanceToEmptyMiles", Option.some "mi",
   Option.none, Option.some 410, Option.none⟩

def dEstimateDistanceToEmptyKm : Descriptor :=
  ⟨"estimate_distance_to_empty_km", "Distance Km Remaining",
   Option.some "mdi:map-marker-distance", Option.some "getBatteryData",
   Option.some "estimatedDistanceToEmptyKm", Option.some "km",
   Option.none, Option.some 660, Option.none⟩

def dCurrentOdometerMeters : Descriptor :=
  ⟨"current_odometer_meters", "Odometer",
   Option.some "mdi:map-marker-distance", Option.some "getOdometerData",
   Option.some "odometerMeters", Option.some "km",
   Option.some 0, Option.none, Option.none⟩

def dAverageSpeedKmPerHour : Descriptor :=
  ⟨"average_speed_km_per_hour", "Avg. Speed",
   Option.some "mdi:speedometer", Option.some "getOdometerData",
   Option.some "averageSpeedKmPerHour", Option.some "km/h",
   Option.none, Option.some 150, Option.none⟩

def dCurrentTripMeterAutomatic : Descriptor :=
  ⟨"current_trip_meter_automatic", "Trip Meter Automatic",
   Option.some "mdi:map-marker-distance", Option.some "getOdometerData",
   Option.some "tripMeterAutomaticKm", Option.some "km",
   Option.none, Option.none, Option.none⟩

def dCurrentTripMeterManual : Descriptor :=
  ⟨"current_trip_meter_manual", "Trip Meter Manual",
   Option.some "mdi:map-marker-distance", Option.some "getOdometerData",
   Option.some "tripMeterManualKm", Option.some "km",
   Option.none, Option.none, Option.none⟩

def dBatteryChargeLevel : Descriptor :=
  ⟨"battery_charge_level", "Battery Level",
   Option.none, Option.some "getBatteryData",
   Option.some "batteryChargeLevelPercentage", Option.some "%",
   Option.some 0, Option.some 100, Option.none⟩

def dEstimatedChargingTimeToFullMinutes : Descriptor :=
  ⟨"estimated_charging_time_to_full_minutes", "Charging Time",
   Option.some "mdi:battery-clock", Option.some "getBatteryData",
   Option.some "estimatedChargingTimeToFullMinutes", Option.some "min",
   Option.none, Option.some 1500, Option.none⟩

def dChargingStatus : Descriptor :=
  ⟨"charging_status", "Charging Status",
   Option.some "mdi:ev-station", Option.some "getBatteryData",
   Option.some "chargingStatus", Option.none,
   Option.none, Option.none, Option.some CHARGING_STATUS_DICT⟩

def dChargingPowerWatts : Descriptor :=
  ⟨"charging_power_watts", "Charging Power",
   Option.some "mdi:lightning-bolt", Option.some "getBatteryData",
   Option.some "chargingPowerWatts", Option.some "W",
   Option.none, Option.none, Option.none⟩

def dChargingCurrentAmps : Descriptor :=
  ⟨"charging_current_amps", "Charging Current",
   Option.some "mdi:current-ac", Option.some "getBatteryData",
   Option.some "chargingCurrentAmps", Option.some "A",
   Option.none, Option.none, Option.none⟩

def dChargerConnectionStatus : Descriptor :=
  ⟨"charger_connection_status", "Charging Connection Status",
   Option.some "mdi:connection", Option.some "getBatteryData",
   Option.some "chargerConnectionStatus", Option.none,
   Option.none, Option.none, Option.some CHARGING_CONNECTION_STATUS_DICT⟩

def dAverageEnergyConsumption : Descriptor :=
  ⟨"average_energy_consumption_kwh_per_100_km", "Avg. Energy Consumption",
   Option.some "mdi:battery-clock", Option.some "getBatteryData",
   Option.some "averageEnergyConsumptionKwhPer100Km", Option.some "kWh/100km",
   Option.none, Option.none, Option.none⟩

def dEstimatedChargingTimeMinutesToTargetDistance : Descriptor :=
  ⟨"estimated_charging_time_minutes_to_target_distance",
   "Estimated Charging Time To Target Distance",
   Option.some "mdi:battery-clock", Option.some "getBatteryData",
   Option.some "estimatedChargingTimeMinutesToTargetDistance", Option.some "%",
   Option.none, Option.none, Option.none⟩

def dVin : Descriptor :=
  ⟨"vin", "VIN",
   Option.some "mdi:card-account-details", Option.some "getConsumerCarsV2",
   Option.some "vin", Option.none,
   Option.none, Option.none, Option.none⟩

def dRegistrationNumber : Descriptor :=
  ⟨"registration_number", "Registration Number",
   Option.some "mdi:numeric-1-box", Option.some "getConsumerCarsV2",
   Option.some "registrationNo", Option.none,
   Option.none, Option.none, Option.none⟩

def dEstimatedFullyChargedTime : Descriptor :=
  ⟨"estimated_fully_charged_time", "Time Full Charged",
   Option.some "mdi:battery-clock", Option.some "getBatteryData",
   Option.some "estimatedChargingTimeToFullMinutes", Option.none,
   Option.none, Option.none, Option.none⟩

def dModelName : Descriptor :=
  ⟨"model_name", "Model Name",
   Option.some "mdi:car-electric", Option.some "getConsumerCarsV2",
   Option.some "content/model/name", Option.none,
   Option.none, Option.none, Option.none⟩

def dLastUpdatedOdometerData : Descriptor :=
  ⟨"last_updated_odometer_data", "Last Updated Odometer Data",
   Option.some "mdi:clock", Option.some "getOdometerData",
   Option.some "eventUpdatedTimestamp/iso", Option.none,
   Option.none, Option.none, Option.none⟩

def dLastUpdatedBatteryData : Descriptor :=
  ⟨"last_updated_battery_data", "Last Updated Battery Data",
   Option.some "mdi:clock", Option.some "getBatteryData",
   Option.some "eventUpdatedTimestamp/iso", Option.none,
   Option.none, Option.none, Option.none⟩

def dEstimateFullChargeRangeMiles : Descriptor :=
  ⟨"estimate_full_charge_range_miles", "Calc. Miles Full Charge",
   Option.some "mdi:map-marker-distance", Option.some "getBatteryData",
   Option.some "estimatedDistanceToEmptyMiles", Option.some "mi",
   Option.none, Option.some 410, Option.none⟩

def dEstimateFullChargeRange : Descriptor :=
  ⟨"estimate_full_charge_range", "Calc. Km Full Charge",
   Option.some "mdi:map-marker-distance", Option.some "getBatteryData",
   Option.some "estimatedDistanceToEmptyKm", Option.some "km",
   Option.none, Option.some 660, Option.none⟩

def dApiStatusCode : Descriptor :=
  ⟨"api_status_code", "API Status",
   Option.some "mdi:heart", Option.none,
   Option.none, Option.none,
   Option.none, Option.none, Option.some API_STATUS_DICT⟩

def dApiTokenExpiresAt : Descriptor :=
  ⟨"api_token_expires_at", "API Token Expired At",
   Option.some "mdi:heart", Option.none,
   Option.none, Option.none,
   Option.none, Option.none, Option.none⟩

/-- The static descriptor table `POLESTAR_SENSOR_TYPES` from the source. -/
def POLESTAR_SENSOR_TYPES : List Descriptor :=
  [dEstimateDistanceToEmptyMiles,
   dEstimateDistanceToEmptyKm,
   dCurrentOdometerMeters,
   dAverageSpeedKmPerHour,
   dCurrentTripMeterAutomatic,
   dCurrentTripMeterManual,
   dBatteryChargeLevel,
   dEstimatedChargingTimeToFullMinutes,
   dChargingStatus,
   dChargingPowerWatts,
   dChargingCurrentAmps,
   dChargerConnectionStatus,
   dAverageEnergyConsumption,
   dEstimatedChargingTimeMinutesToTargetDistance,
   dVin,
   dRegistrationNumber,
   dEstimatedFullyChargedTime,
   dModelName,
   dLastUpdatedOdometerData,
   dLastUpdatedBatteryData,
   dEstimateFullChargeRangeMiles,
   dEstimateFullChargeRange,
   dApiStatusCode,
   dApiTokenExpiresAt]

/-- Final rounding step of `PolestarSensor.state` (source lines 538-543):
with `round_digits` set, an `isinstance(..., int)` value under zero-digit
rounding is returned as `int(...)`; otherwise `round(float(...), digits)`;
with no `round_digits`, the cached value is returned as is (line 545). -/
def stateRound (d : Descriptor) (native : Val) : Except PyErr Val × Val :=
  match d.round_digits with
  | Option.none => (Except.ok native, native)
  | Option.some rd =>
    if rd = 0 && isinstanceInt native then (Except.ok (Val.int (intValOf native)), native)
    else
      match pyFloat native with
      | Except.error e => (Except.error e, native)
      | Except.ok q => (Except.ok (Val.float (pyRoundDigits q rd)), native)

/-- Odometer step of `PolestarSensor.state` (source lines 533-536). The
source tests `key in ('current_odometer_meters')`, a Python substring
test against the bare string, and on `int(value) > 1000` overwrites the
cached value with `int(value / 1000)`. -/
def stateOdometer (d : Descriptor) (native : Val) : Except PyErr Val × Val :=
  if strIn d.key "current_odometer_meters" then
    match pyToInt native with
    | Except.error e => (Except.error e, native)
    | Except.ok n =>
      if 1000 < n then
        match pyDivInt native 1000 with
        | Except.error e => (Except.error e, native)
        | Except.ok q => stateRound d (Val.int (qTrunc q))
      else stateRound d native
  else stateRound d native

/-- Full-charge-range step of `PolestarSensor.state` (source lines 514-531):
for the two estimate keys, fetch the two related raw fields via
`get_latest_data`, return None when either `is None` or `is False`,
otherwise convert both with `int(...)` and return
`round(estimate_range / battery_level * 100)`. -/
def stateRange (d : Descriptor) (dev : Device) (native : Val) : Except PyErr Val × Val :=
  if d.key = "estimate_full_charge_range" ∨ d.key = "estimate_full_charge_range_miles" then
    let bl := dev.get_latest_data d.query (Option.some "batteryChargeLevelPercentage")
    let er := dev.get_latest_data d.query d.field_name
    if bl = Val.none ∨ er = Val.none then (Except.ok Val.none, native)
    else if bl = Val.bool false ∨ er = Val.bool false then (Except.ok Val.none, native)
    else
      match pyToInt bl with
      | Except.error e => (Except.error e, native)
      | Except.ok b =>
        match pyToInt er with
        | Except.error e => (Except.error e, native)
        | Except.ok r =>
          if b = 0 then (Except.error PyErr.zeroDivisionError, native)
          else (Except.ok (Val.int (pyRound ((r : ℚ) / (b : ℚ) * 100))), native)
  else stateOdometer d native

/-- Estimated-fully-charged-time step of `PolestarSensor.state` (source lines
507-512): `int(value)` minutes; if positive, `datetime.now()` truncated to
the minute plus that many minutes, else the literal `"Not charging"`. -/
def stateFullyCharged (d : Descriptor) (dev : Device) (now : PyDateTime) (native : Val) :
    Except PyErr Val × Val :=
  if d.key = "estimated_fully_charged_time" then
    match pyToInt native with
    | Except.error e => (Except.error e, native)
    | Except.ok n =>
      if 0 < n then (Except.ok (Val.dt ⟨now.minutes + n, 0⟩), native)
      else (Except.ok (Val.str "Not charging"), native)
  else stateRange d dev native

/-- Max-value guard of `PolestarSensor.state` (source lines 500-505): with a
declared max, a string cached value is first overwritten by its `int(...)`
conversion, then any value greater than the max yields None. -/
def stateMax (d : Descriptor) (dev : Device) (now : PyDateTime) (native : Val) :
    Except PyErr Val × Val :=
  match d.max_value with
  | Option.none => stateFullyCharged d dev now native
  | Option.some m =>
    match native with
    | Val.str s =>
      match parseIntStr s with
      | Except.error e => (Except.error e, native)
      | Except.ok n =>
        if m < n then (Except.ok Val.none, Val.int n)
        else stateFullyCharged d dev now (Val.int n)
    | v =>
      match pyGtInt v m with
      | Except.error e => (Except.error e, native)
      | Except.ok b =>
        if b then (Except.ok Val.none, native) else stateFullyCharged d dev now v

/-- Battery-level strip of `PolestarSensor.state` (source lines 494-498): for
the battery key, a string cached value is overwritten by
`int(value.replace(".0", ""))` — note `str.replace` removes every
occurrence of `".0"`, not only a trailing one. -/
def stateBattery (d : Descriptor) (dev : Device) (now : PyDateTime) (native : Val) :
    Except PyErr Val × Val :=
  if d.key = "battery_charge_level" then
    match native with
    | Val.str s =>
      match parseIntStr (pyReplace s ".0" "") with
      | Except.error e => (Except.error e, native)
      | Except.ok n => stateMax d dev now (Val.int n)
    | v => stateMax d dev now v
  else stateMax d dev now native

/-- The `PolestarSensor.state` property (source lines 477-545), as a function
of the descriptor, the device, the current time and the cached
`_attr_native_value`; the second component is the cached value after the
read (the property assigns to `self._attr_native_value` in three places). -/
def state (d : Descriptor) (dev : Device) (now : PyDateTime) (native : Val) :
    Except PyErr Val × Val :=
  match d.dict_data with
  | Option.some dict =>
      if d.key = "api_status_code" then
        (Except.ok (dictGet dict (Val.int dev.latest_call_code) (Val.str "Error")), native)
      else
        (Except.ok (dictGet dict native native), native)
  | Option.none =>
      if d.key = "api_token_expires_at" then
        (Except.ok (match dev.token_expiry with
          | Option.none => Val.none
          | Option.some t => Val.str (strftimeYmdHms t)), native)
      else if !(pyEq native (Val.int 0)) && (pyEq native Val.none || pyEq native (Val.bool false)) then
        (Except.ok Val.none, native)
      else
        stateBattery d dev now native

/-- Python `vin[-4:]`: the last four characters (the whole string when it is
shorter than four characters). -/
def lastFour (s : String) : String := String.mk (s.data.drop (s.data.length - 4))

/-- `self._attr_unique_id` as assigned in `PolestarSensor.__init__`
(source line 428). -/
def attrUniqueId (dev : Device) (d : Descriptor) : String :=
  "polestar_" ++ lastFour dev.vin ++ "-" ++ d.key

/-- The `PolestarSensor.unique_id` property (source lines 455-458), which is
what the host framework reads; it overrides the `_attr_unique_id` default. -/
def uniqueIdProp (dev : Device) (d : Descriptor) : String :=
  dev.id ++ "-" ++ d.key

/-- Modelled from the spec: the external `Polestar` device object's `id`
attribute (its class lives outside the analysed file). The spec states the
entity's unique id is `polestar_` followed by the last four characters of
the VIN, a hyphen, and the key; combined with the `unique_id` property
(`id` plus hyphen plus key), the device id is `polestar_` plus the last
four VIN characters. -/
def specDeviceId (vin : String) : String := "polestar_" ++ lastFour vin

/-- The sensor fields mutated by `PolestarSensor.async_update`: the cached
native value and the external client's `next_update` time (seconds). -/
structure SensorUpd where
  native : Val
  next_update : ℚ
deriving Repr

/-- `PolestarSensor.async_update` (source lines 552-560). The device call and
the `get_value` read are modelled by their outcomes (success or a raised
exception of an arbitrary type `E`). The function is total: every failure
is caught. The second component records whether a warning was logged. -/
def async_update {E : Type} (devUpdate : Except E Unit) (get_value : Except E Val)
    (now : ℚ) (st : SensorUpd) : SensorUpd × Bool :=
  match devUpdate with
  | Except.error _ => (⟨st.native, now + 60⟩, true)
  | Except.ok _ =>
    match get_value with
    | Except.error _ => (⟨st.native, now + 60⟩, true)
    | Except.ok v => (⟨v, st.next_update⟩, false)

/-- A concrete device used by closed witnesses and counterexamples: a healthy
client (latest call code 200) with no cached related data. -/
def dev0 : Device :=
  ⟨"LPSVSEDEEML12345", "polestar_2345", 200, Option.none, fun _ _ => Val.none⟩

/-- Device whose latest battery level is 50 % and latest range estimate 200. -/
def devFifty : Device :=
  ⟨"LPSVSEDEEML12345", "polestar_2345", 200, Option.none,
   fun _ f => if f = Option.some "batteryChargeLevelPercentage" then Val.int 50 else Val.int 200⟩

/-- Device whose latest battery level is the int 0, range estimate 200. -/
def devZero : Device :=
  ⟨"LPSVSEDEEML12345", "polestar_2345", 200, Option.none,
   fun _ f => if f = Option.some "batteryChargeLevelPercentage" then Val.int 0 else Val.int 200⟩

/-- Device whose latest battery level is the string "0", range estimate 200. -/
def devZeroStr : Device :=
  ⟨"LPSVSEDEEML12345", "polestar_2345", 200, Option.none,
   fun _ f => if f = Option.some "batteryChargeLevelPercentage" then Val.str "0" else Val.int 200⟩

/-- A fixed current time: 27000000 minutes past the epoch plus 30 seconds. -/
def now0 : PyDateTime := ⟨27000000, 30⟩

/-- C2: the claim says a cached raw value of None or boolean False makes the
state accessor return None (with the numeral zero exempt). The None half
holds, but the False half does not: in Python `False != 0` is false
(because `False == 0`), so the zero exemption in
`value != 0 and value in (None, False)` also exempts False, and the raw
False falls through every later branch and is returned unchanged. Evaluated
here on the charging_power_watts descriptor (no label dictionary). -/
theorem C2_false_guard_dead :
    (state dChargingPowerWatts dev0 now0 Val.none).1 = Except.ok Val.none ∧
    (state dChargingPowerWatts dev0 now0 (Val.bool false)).1 = Except.ok (Val.bool false) :=
  ⟨rfl, rfl⟩

/-- C6: the claim says only a trailing ".0" is stripped from a string raw
value of the battery_charge_level key. The code calls
`value.replace('.0', '')`, which removes every occurrence: "85.0" does
format to 85 as claimed, but "1.05", which has no trailing ".0", is
rewritten to "15" and formats to 15 (only-trailing stripping would leave
"1.05", which `int(...)` cannot convert). -/
theorem C6_battery_strip_not_only_trailing :
    state dBatteryChargeLevel dev0 now0 (Val.str "85.0") = (Except.ok (Val.int 85), Val.int 85) ∧
    state dBatteryChargeLevel dev0 now0 (Val.str "1.05") = (Except.ok (Val.int 15), Val.int 15) :=
  ⟨rfl, rfl⟩

/-- C10: the guard before the full-charge-range derivation only rejects
related values that are `None` or `False`, so a battery level of 0 (or the
string "0") with a non-null range estimate reaches the division by zero:
the state accessor raises ZeroDivisionError at the public interface. -/
theorem C10_division_by_zero_reachable :
    (state dEstimateFullChargeRange devZero now0 (Val.int 200)).1 =
      Except.error PyErr.zeroDivisionError ∧
    (state dEstimateFullChargeRange devZeroStr now0 (Val.int 200)).1 =
      Except.error PyErr.zeroDivisionError :=
  ⟨rfl, rfl⟩

/-- C9: every failure during the update cycle (the device refresh or the
subsequent `get_value` read raising any exception) is caught —
`async_update` is a total function — a warning is logged, the external
client's next scheduled refresh is set to 60 seconds from now, and the
cached native value keeps its last known value. -/
theorem C9_update_failure_cooldown {E : Type} (devUpdate : Except E Unit)
    (get_value : Except E Val) (now : ℚ) (st : SensorUpd)
    (hfail : (∃ e, devUpdate = Except.error e) ∨
             (devUpdate = Except.ok () ∧ ∃ e, get_value = Except.error e)) :
    (async_update devUpdate get_value now st).1.native = st.native ∧
    (async_update devUpdate get_value now st).1.next_update = now + 60 ∧
    (async_update devUpdate get_value now st).2 = true := by
  rcases hfail with ⟨e, rfl⟩ | ⟨rfl, e, rfl⟩ <;> simp [async_update]

/-- Witness for C9 at a concrete failing device refresh. -/
theorem C9_update_failure_cooldown_witness :
    (async_update (Except.error PyErr.valueError) (Except.ok (Val.int 7)) 100
        ⟨Val.int 5, 0⟩).1.native = Val.int 5 ∧
    (async_update (Except.error PyErr.valueError) (Except.ok (Val.int 7)) 100
        ⟨Val.int 5, 0⟩).1.next_update = 160 ∧
    (async_update (Except.error PyErr.valueError) (Except.ok (Val.int 7)) 100
        ⟨Val.int 5, 0⟩).2 = true := by
  have h := C9_update_failure_cooldown (Except.error PyErr.valueError)
    (Except.ok (Val.int 7)) 100 ⟨Val.int 5, 0⟩ (Or.inl ⟨PyErr.valueError, rfl⟩)
  exact ⟨h.1, h.2.1.trans (by norm_num), h.2.2⟩

/-- C8: with the external device id modelled from the spec
(`polestar_` plus the last four VIN characters), both the `unique_id`
property exposed to the host framework and the `_attr_unique_id` set in
the constructor equal `polestar_{last4(vin)}-{key}` for every descriptor. -/
theorem C8_unique_id (dev : Device) (d : Descriptor)
    (hid : dev.id = specDeviceId dev.vin) :
    uniqueIdProp dev d = "polestar_" ++ lastFour dev.vin ++ "-" ++ d.key ∧
    attrUniqueId dev d = "polestar_" ++ lastFour dev.vin ++ "-" ++ d.key := by
  refine ⟨?_, rfl⟩
  rw [uniqueIdProp, hid, specDeviceId]

/-- Witness for C8 at the concrete device and the vin descriptor. -/
theorem C8_unique_id_witness :
    uniqueIdProp dev0 dVin = "polestar_2345-vin" ∧
    attrUniqueId dev0 dVin = "polestar_2345-vin" := by
  have h := C8_unique_id dev0 dVin rfl
  exact ⟨h.1.trans rfl, h.2.trans rfl⟩

/-- C4: for the estimated_fully_charged_time key, a positive raw value N
yields the current time truncated to the minute plus N minutes, and a raw
value of zero or any non-positive value yields the literal string
"Not charging". -/
theorem C4_fully_charged_time (dev : Device) (now : PyDateTime) (n : Int) :
    (0 < n → (state dEstimatedFullyChargedTime dev now (Val.int n)).1 =
        Except.ok (Val.dt ⟨now.minutes + n, 0⟩)) ∧
    (n ≤ 0 → (state dEstimatedFullyChargedTime dev now (Val.int n)).1 =
        Except.ok (Val.str "Not charging")) := by
  by_cases hz : n = 0
  · subst hz
    exact ⟨fun h => absurd h (by norm_num), fun _ => rfl⟩
  · constructor
    · intro h
      simp [state, stateBattery, stateMax, stateFullyCharged, dEstimatedFullyChargedTime,
        pyEq, pyToInt, hz, h]
    · intro h
      have h' : ¬(0 < n) := by omega
      simp [state, stateBattery, stateMax, stateFullyCharged, dEstimatedFullyChargedTime,
        pyEq, pyToInt, hz, h']

/-- Witness for C4: raw 30 yields now truncated to the minute plus 30
minutes; raw 0 yields "Not charging". -/
theorem C4_fully_charged_time_witness :
    (state dEstimatedFullyChargedTime dev0 now0 (Val.int 30)).1 =
      Except.ok (Val.dt ⟨27000030, 0⟩) ∧
    (state dEstimatedFullyChargedTime dev0 now0 (Val.int 0)).1 =
      Except.ok (Val.str "Not charging") :=
  ⟨(C4_fully_charged_time dev0 now0 30).1 (by norm_num),
   (C4_fully_charged_time dev0 now0 0).2 le_rfl⟩

/-- C5: for the odometer key, an integer raw reading above 1000 is divided
by 1000 and truncated to an integer (the cached value is overwritten with
the result), and a reading of at most 1000 is returned unchanged. -/
theorem C5_odometer_conversion (dev : Device) (now : PyDateTime) (n : Int) :
    (1000 < n → state dCurrentOdometerMeters dev now (Val.int n) =
        (Except.ok (Val.int (n / 1000)), Val.int (n / 1000))) ∧
    (n ≤ 1000 → state dCurrentOdometerMeters dev now (Val.int n) =
        (Except.ok (Val.int n), Val.int n)) := by
  have hso : strIn "current_odometer_meters" "current_odometer_meters" = true := rfl
  constructor
  · intro h
    have hnq : (0 : ℚ) ≤ (n : ℚ) := by exact_mod_cast (by omega : (0 : Int) ≤ n)
    have hnn : (0 : ℚ) ≤ (n : ℚ) / (1000 : ℚ) := by positivity
    have key : qTrunc ((n : ℚ) / (1000 : ℚ)) = n / 1000 := by
      rw [qTrunc, if_pos hnn]
      have h10 : (1000 : ℚ) = ((1000 : ℕ) : ℚ) := by norm_num
      rw [h10, Rat.floor_intCast_div_natCast]
      norm_num
    have hz : n ≠ 0 := by omega
    simp [state, stateBattery, stateMax, stateFullyCharged, stateRange, stateOdometer,
      stateRound, dCurrentOdometerMeters, pyEq, pyToInt, pyDivInt, hso, hz, h, key,
      isinstanceInt, intValOf]
  · intro h
    have h' : ¬(1000 < n) := by omega
    by_cases hz : n = 0
    · subst hz
      exact rfl
    · simp [state, stateBattery, stateMax, stateFullyCharged, stateRange, stateOdometer,
        stateRound, dCurrentOdometerMeters, pyEq, pyToInt, hso, hz, h',
        isinstanceInt, intValOf]

/-- Witness for C5: raw 1500 formats to 1; raw 500 is returned unchanged. -/
theorem C5_odometer_conversion_witness :
    state dCurrentOdometerMeters dev0 now0 (Val.int 1500) =
      (Except.ok (Val.int 1), Val.int 1) ∧
    state dCurrentOdometerMeters dev0 now0 (Val.int 500) =
      (Except.ok (Val.int 500), Val.int 500) := by
  have h1 := (C5_odometer_conversion dev0 now0 1500).1 (by norm_num)
  have h2 := (C5_odometer_conversion dev0 now0 500).2 (by norm_num)
  constructor
  · rw [h1]; norm_num
  · rw [h2]

/-- Reduction lemma: for a guard-passing integer cached value on a
dictionary-free, non-special descriptor with a declared max not exceeded,
the state accessor reaches the full-charge-range step unchanged. -/
theorem state_range_reduction (d : Descriptor) (dev : Device) (now : PyDateTime) (M n : Int)
    (hdict : d.dict_data = Option.none)
    (htok : d.key ≠ "api_token_expires_at")
    (hbat : d.key ≠ "battery_charge_level")
    (hfc : d.key ≠ "estimated_fully_charged_time")
    (hM : d.max_value = Option.some M) (hn : n ≤ M) :
    state d dev now (Val.int n) = stateRange d dev (Val.int n) := by
  have hng : ¬ (M < n) := by omega
  by_cases hz : n = 0
  · subst hz
    simp [state, hdict, htok, stateBattery, hbat, stateMax, hM, stateFullyCharged, hfc,
      pyEq, pyGtInt, hng]
  · simp [state, hdict, htok, stateBattery, hbat, stateMax, hM, stateFullyCharged, hfc,
      pyEq, pyGtInt, hz, hng]

/-- The full-charge-range step returns None when either related raw field is
missing (None) or False. -/
theorem stateRange_null (d : Descriptor) (dev : Device) (native : Val)
    (hkey : d.key = "estimate_full_charge_range" ∨ d.key = "estimate_full_charge_range_miles")
    (hnull : dev.get_latest_data d.query (Option.some "batteryChargeLevelPercentage") = Val.none ∨
      dev.get_latest_data d.query d.field_name = Val.none ∨
      dev.get_latest_data d.query (Option.some "batteryChargeLevelPercentage") = Val.bool false ∨
      dev.get_latest_data d.query d.field_name = Val.bool false) :
    (stateRange d dev native).1 = Except.ok Val.none := by
  rw [stateRange, if_pos hkey]
  rcases hnull with h | h | h | h
  · simp [h]
  · simp [h]
  · by_cases h2 : dev.get_latest_data d.query d.field_name = Val.none <;> simp [h, h2]
  · by_cases h2 : dev.get_latest_data d.query (Option.some "batteryChargeLevelPercentage") = Val.none <;>
      simp [h, h2]

/-- The full-charge-range step computes `round(estimate_range /
battery_level * 100)` when both related fields are present, not False, and
convert to integers with nonzero battery level. -/
theorem stateRange_formula (d : Descriptor) (dev : Device) (native : Val) (b r : Int)
    (hkey : d.key = "estimate_full_charge_range" ∨ d.key = "estimate_full_charge_range_miles")
    (hbln : dev.get_latest_data d.query (Option.some "batteryChargeLevelPercentage") ≠ Val.none)
    (hern : dev.get_latest_data d.query d.field_name ≠ Val.none)
    (hblf : dev.get_latest_data d.query (Option.some "batteryChargeLevelPercentage") ≠ Val.bool false)
    (herf : dev.get_latest_data d.query d.field_name ≠ Val.bool false)
    (hb : pyToInt (dev.get_latest_data d.query (Option.some "batteryChargeLevelPercentage")) = Except.ok b)
    (hr : pyToInt (dev.get_latest_data d.query d.field_name) = Except.ok r)
    (hbz : b ≠ 0) :
    (stateRange d dev native).1 = Except.ok (Val.int (pyRound ((r : ℚ) / (b : ℚ) * 100))) := by
  rw [stateRange, if_pos hkey]
  simp [hbln, hern, hblf, herf, hb, hr, hbz]

/-- C3: for the two full-charge-range estimate keys (with an integer cached
value passing the max guard), the state accessor returns None whenever
either related raw field is missing (None) or False, and otherwise, with
both related fields converting to integers and a nonzero battery level,
returns `round(estimate_range / battery_level * 100)`. -/
theorem C3_full_charge_range (d : Descriptor) (M : Int)
    (hd : d = dEstimateFullChargeRange ∨ d = dEstimateFullChargeRangeMiles)
    (hM : d.max_value = Option.some M)
    (dev : Device) (now : PyDateTime) (n : Int) (hn : n ≤ M) :
    ((dev.get_latest_data d.query (Option.some "batteryChargeLevelPercentage") = Val.none ∨
      dev.get_latest_data d.query d.field_name = Val.none ∨
      dev.get_latest_data d.query (Option.some "batteryChargeLevelPercentage") = Val.bool false ∨
      dev.get_latest_data d.query d.field_name = Val.bool false) →
      (state d dev now (Val.int n)).1 = Except.ok Val.none) ∧
    (∀ b r : Int,
      dev.get_latest_data d.query (Option.some "batteryChargeLevelPercentage") ≠ Val.none →
      dev.get_latest_data d.query d.field_name ≠ Val.none →
      dev.get_latest_data d.query (Option.some "batteryChargeLevelPercentage") ≠ Val.bool false →
      dev.get_latest_data d.query d.field_name ≠ Val.bool false →
      pyToInt (dev.get_latest_data d.query (Option.some "batteryChargeLevelPercentage")) = Except.ok b →
      pyToInt (dev.get_latest_data d.query d.field_name) = Except.ok r →
      b ≠ 0 →
      (state d dev now (Val.int n)).1 =
        Except.ok (Val.int (pyRound ((r : ℚ) / (b : ℚ) * 100)))) := by
  have hdict : d.dict_data = Option.none := by rcases hd with rfl | rfl <;> rfl
  have htok : d.key ≠ "api_token_expires_at" := by rcases hd with rfl | rfl <;> decide
  have hbat : d.key ≠ "battery_charge_level" := by rcases hd with rfl | rfl <;> decide
  have hfc : d.key ≠ "estimated_fully_charged_time" := by rcases hd with rfl | rfl <;> decide
  have hkey : d.key = "estimate_full_charge_range" ∨ d.key = "estimate_full_charge_range_miles" := by
    rcases hd with rfl | rfl
    · exact Or.inl rfl
    · exact Or.inr rfl
  have hred := state_range_reduction d dev now M n hdict htok hbat hfc hM hn
  constructor
  · intro hnull
    rw [hred]
    exact stateRange_null d dev (Val.int n) hkey hnull
  · intro b r hbln hern hblf herf hb hr hbz
    rw [hred]
    exact stateRange_formula d dev (Val.int n) b r hkey hbln hern hblf herf hb hr hbz

/-- Witness for C3: battery level 50 with range estimate 200 yields 400. -/
theorem C3_full_charge_range_witness :
    (state dEstimateFullChargeRange devFifty now0 (Val.int 200)).1 =
      Except.ok (Val.int 400) := by
  have h := (C3_full_charge_range dEstimateFullChargeRange 660 (Or.inl rfl) rfl devFifty now0
      200 (by norm_num)).2 50 200 (by decide) (by decide) (by decide) (by decide) rfl rfl
      (by norm_num)
  rw [h]
  norm_num [pyRound, Int.fract]

/-- Max guard on an integer cached value: any int above the declared max
yields None. -/
theorem state_max_guard_int (d : Descriptor) (dev : Device) (now : PyDateTime) (M n : Int)
    (hdict : d.dict_data = Option.none) (htok : d.key ≠ "api_token_expires_at")
    (hM : d.max_value = Option.some M) (hn : M < n) :
    (state d dev now (Val.int n)).1 = Except.ok Val.none := by
  by_cases hz : n = 0
  · subst hz
    simp [state, hdict, htok, stateBattery, stateMax, hM, pyEq, pyGtInt, hn]
  · simp [state, hdict, htok, stateBattery, stateMax, hM, pyEq, pyGtInt, hz, hn]

/-- Max guard on a string cached value: a numeric string whose int
conversion (after the battery strip, when applicable) exceeds the declared
max yields None. -/
theorem state_max_guard_str (d : Descriptor) (dev : Device) (now : PyDateTime) (M n : Int)
    (s : String)
    (hdict : d.dict_data = Option.none) (htok : d.key ≠ "api_token_expires_at")
    (hM : d.max_value = Option.some M)
    (hp : parseIntStr (if d.key = "battery_charge_level" then pyReplace s ".0" "" else s) =
      Except.ok n)
    (hn : M < n) :
    (state d dev now (Val.str s)).1 = Except.ok Val.none := by
  by_cases hb : d.key = "battery_charge_level"
  · rw [if_pos hb] at hp
    simp [state, hdict, htok, stateBattery, hb, stateMax, hM, pyEq, pyGtInt, hp, hn]
  · rw [if_neg hb] at hp
    simp [state, hdict, htok, stateBattery, hb, stateMax, hM, pyEq, pyGtInt, hp, hn]

/-- Max guard on a float cached value above the declared max. -/
theorem state_max_guard_float (d : Descriptor) (dev : Device) (now : PyDateTime) (M : Int)
    (q : ℚ)
    (hdict : d.dict_data = Option.none) (htok : d.key ≠ "api_token_expires_at")
    (hM : d.max_value = Option.some M) (hq : (M : ℚ) < q) :
    (state d dev now (Val.float q)).1 = Except.ok Val.none := by
  by_cases hz : q = 0
  · subst hz
    simp [state, hdict, htok, stateBattery, stateMax, hM, pyEq, pyGtInt, hq]
  · simp [state, hdict, htok, stateBattery, stateMax, hM, pyEq, pyGtInt, hz, hq]

/-- C1: for every descriptor of the static table that declares a maximum
plausible value M, any raw int above M, any numeric string whose integer
conversion (after the battery-key strip, where applicable) is above M, and
any float above M make the state accessor return None. -/
theorem C1_max_value_guard (d : Descriptor) (hd : d ∈ POLESTAR_SENSOR_TYPES) (M : Int)
    (hM : d.max_value = Option.some M) (dev : Device) (now : PyDateTime) :
    (∀ n : Int, M < n → (state d dev now (Val.int n)).1 = Except.ok Val.none) ∧
    (∀ (s : String) (n : Int),
      parseIntStr (if d.key = "battery_charge_level" then pyReplace s ".0" "" else s) =
        Except.ok n →
      M < n → (state d dev now (Val.str s)).1 = Except.ok Val.none) ∧
    (∀ q : ℚ, (M : ℚ) < q → (state d dev now (Val.float q)).1 = Except.ok Val.none) := by
  fin_cases hd
  all_goals try exact Option.noConfusion hM
  all_goals
    have hMM := Option.some.inj hM
  all_goals subst hMM
  all_goals
    exact ⟨fun n hn => state_max_guard_int _ dev now _ n rfl (by decide) rfl hn,
           fun s n hp hn => state_max_guard_str _ dev now _ n s rfl (by decide) rfl hp hn,
           fun q hq => state_max_guard_float _ dev now _ q rfl (by decide) rfl hq⟩

/-- Witness for C1: the battery level descriptor (max 100) maps the raw int
150 and the raw string "150.0" to None. -/
theorem C1_max_value_guard_witness :
    (state dBatteryChargeLevel dev0 now0 (Val.int 150)).1 = Except.ok Val.none ∧
    (state dBatteryChargeLevel dev0 now0 (Val.str "150.0")).1 = Except.ok Val.none := by
  have h := C1_max_value_guard dBatteryChargeLevel (by decide) 100 rfl dev0 now0
  exact ⟨h.1 150 (by norm_num), h.2.1 "150.0" 150 rfl (by norm_num)⟩

/-- Counterexample to C7: the state accessor is not side-effect free. For
the odometer descriptor with cached raw value 1500000, reading the state
overwrites the cached value (1500000 becomes 1500), and an immediate
second read on the updated state returns a different result (1 instead of
1500). -/
theorem C7_counterexample_state_mutates :
    (state dCurrentOdometerMeters dev0 now0 (Val.int 1500000)).2 ≠ Val.int 1500000 ∧
    (state dCurrentOdometerMeters dev0 now0
        ((state dCurrentOdometerMeters dev0 now0 (Val.int 1500000)).2)).1 ≠
      (state dCurrentOdometerMeters dev0 now0 (Val.int 1500000)).1 := by
  have h1 : state dCurrentOdometerMeters dev0 now0 (Val.int 1500000) =
      (Except.ok (Val.int 1500), Val.int 1500) := by
    simp [state, stateBattery, stateMax, stateFullyCharged, stateRange, stateOdometer,
      stateRound, dCurrentOdometerMeters, pyEq, pyToInt, pyDivInt, qTrunc, strIn, chContains,
      chStartsWith, isinstanceInt, intValOf]
    norm_num
  have h2 : state dCurrentOdometerMeters dev0 now0 (Val.int 1500) =
      (Except.ok (Val.int 1), Val.int 1) := by
    simp [state, stateBattery, stateMax, stateFullyCharged, stateRange, stateOdometer,
      stateRound, dCurrentOdometerMeters, pyEq, pyToInt, pyDivInt, qTrunc, strIn, chContains,
      chStartsWith, isinstanceInt, intValOf]
    norm_num
  constructor
  · rw [h1]
    simp
  · rw [h1, h2]
    simp

/-- C7 amended: the state accessor can overwrite the cached native value in
exactly three places — the battery-key string strip, the string conversion
under a declared max value, and the odometer meter-to-km conversion. For
every descriptor outside those three branches (key not the battery key,
key not a substring of "current_odometer_meters", no max value declared),
reading the state leaves the cached value unchanged and reading twice in
succession yields the same result; the device is never written. -/
theorem C7_amended_frame (d : Descriptor) (dev : Device) (now : PyDateTime) (v : Val)
    (hb : d.key ≠ "battery_charge_level")
    (ho : strIn d.key "current_odometer_meters" = false)
    (hm : d.max_value = Option.none) :
    (state d dev now v).2 = v ∧
    state d dev now ((state d dev now v).2) = state d dev now v := by
  have frame : ∀ w : Val, (state d dev now w).2 = w := by
    intro w
    cases hdict : d.dict_data with
    | some dict =>
      simp only [state, hdict]
      split <;> rfl
    | none =>
      simp [state, stateBattery, stateMax, stateFullyCharged, stateRange, stateOdometer,
        stateRound, hdict, hm, hb, ho]
      repeat' split
      all_goals simp
  exact ⟨frame v, by rw [frame v]⟩

/-- Witness for the amended C7 on the charging-power descriptor. -/
theorem C7_amended_frame_witness :
    (state dChargingPowerWatts dev0 now0 (Val.str "x")).2 = Val.str "x" ∧
    state dChargingPowerWatts dev0 now0
        ((state dChargingPowerWatts dev0 now0 (Val.str "x")).2) =
      state dChargingPowerWatts dev0 now0 (Val.str "x") :=
  C7_amended_frame dChargingPowerWatts dev0 now0 (Val.str "x") (by decide) rfl rfl
